import Mathlib

/-!
Shallow embedding of the voice-assistant repository (three Python variants:
`Lab_10.py` — Rick-and-Morty assistant, `Extra_.py` — dictionary assistant,
`main1.py` — minimal loop) together with theorems checking the repository's
natural-language specification against the code.

Utterance text is embedded as `List Char`.  Python string operations used by
the source (`strip`, `lower`, `startswith`, `replace`, `in`) are modelled by
executable functions below.  External collaborators (HTTP, image decoding,
randomness) are oracles passed as parameters; Python exceptions escaping a
handler are modelled with `Except PyExc`.
-/

set_option maxHeartbeats 1000000

abbrev Str := List Char

def toL (s : String) : Str := s.toList

/-- Python whitespace for `str.strip` (the characters stripped by default). -/
def isPySpace (c : Char) : Bool :=
  c == ' ' || c == '\t' || c == '\n' || c == '\x0d' || c == '\x0b' || c == '\x0c'

def trimLeft : Str → Str
  | [] => []
  | c :: cs => if isPySpace c then trimLeft cs else c :: cs

/-- Model of Python `str.strip()`: drop whitespace from both ends. -/
def pyStrip (s : Str) : Str := ((trimLeft s).reverse |> trimLeft).reverse

/-- Model of Python `str.lower()` restricted to the alphabets the program
uses (ASCII and the Russian Cyrillic block, which is what the vosk models
and the alias tables produce). -/
def pyLowerChar (c : Char) : Char :=
  if 'A' ≤ c ∧ c ≤ 'Z' then Char.ofNat (c.toNat + 32)
  else if 'А' ≤ c ∧ c ≤ 'Я' then Char.ofNat (c.toNat + 32)
  else if c = 'Ё' then 'ё'
  else c

def pyLower (s : Str) : Str := s.map pyLowerChar

/-- Model of Python `str.startswith(pat)`. -/
def pyStartsWith : Str → Str → Bool
  | [], _ => true
  | _ :: _, [] => false
  | p :: ps, c :: cs => p == c && pyStartsWith ps cs

/-- Model of Python `pat in s` (substring containment). -/
def pyIn (pat : Str) : Str → Bool
  | [] => pyStartsWith pat []
  | c :: cs => pyStartsWith pat (c :: cs) || pyIn pat cs

/-- Worker for `pyReplaceDel`, structurally recursive on a fuel bound that
always dominates the length of the remaining text. -/
def pyReplaceDelF (pat : Str) : Nat → Str → Str
  | _, [] => []
  | 0, s => s
  | fuel + 1, c :: rest =>
    if pyStartsWith pat (c :: rest) then pyReplaceDelF pat fuel (rest.drop (pat.length - 1))
    else c :: pyReplaceDelF pat fuel rest

/-- Model of Python `s.replace(pat, '')` for a non-empty `pat`: delete the
non-overlapping occurrences of `pat`, scanning left to right. -/
def pyReplaceDel (pat s : Str) : Str := pyReplaceDelF pat s.length s

def natToDec (n : Nat) : Str := Nat.toDigits 10 n

def intToDec (i : Int) : Str :=
  if i < 0 then '-' :: natToDec i.natAbs else natToDec i.natAbs

/-- JSON values, as returned by `response.json()`. -/
inductive Json where
  | null
  | bool (b : Bool)
  | str (s : Str)
  | num (n : Int)
  | arr (elems : List Json)
  | obj (fields : List (Str × Json))

/-- Python truthiness of a JSON value (`if x:`). -/
def Json.falsy : Json → Bool
  | .null => true
  | .bool b => !b
  | .str s => s.isEmpty
  | .num n => n == 0
  | .arr xs => xs.isEmpty
  | .obj fs => fs.isEmpty

def jLookup : List (Str × Json) → Str → Option Json
  | [], _ => none
  | (k, v) :: rest, key => if k == key then some v else jLookup rest key

/-- Python exceptions that can cross the handler boundary in this program. -/
inductive PyExc where
  | requestException (msg : Str)
  | indexError
  | valueError
  | keyError
  | typeError
  | attributeError
deriving DecidableEq

/-- Model of Python `str(x)` on the values the program formats.  The
`arr`/`obj` representations are abbreviated; no theorem exercises them. -/
def pyFormat : Json → Str
  | .null => toL "None"
  | .bool true => toL "True"
  | .bool false => toL "False"
  | .str s => s
  | .num n => intToDec n
  | .arr _ => toL "<list>"
  | .obj _ => toL "<dict>"

/-- Python `d.get(k, dflt)`: an `AttributeError` on non-dicts. -/
def pyDictGet (j : Json) (k : Str) (dflt : Json) : Except PyExc Json :=
  match j with
  | .obj fs => .ok ((jLookup fs k).getD dflt)
  | _ => .error .attributeError

/-- Python `d.get(k)` (default `None`). -/
def pyDictGetOpt (j : Json) (k : Str) : Except PyExc Json := pyDictGet j k .null

/-- Python `j[k]` for a string key `k`. -/
def pySubscript (j : Json) (k : Str) : Except PyExc Json :=
  match j with
  | .obj fs =>
    match jLookup fs k with
    | some v => .ok v
    | none => .error .keyError
  | _ => .error .typeError

/-- Python `j[0]`. -/
def pyIndex0 (j : Json) : Except PyExc Json :=
  match j with
  | .arr (x :: _) => .ok x
  | .arr [] => .error .indexError
  | .str (c :: _) => .ok (.str [c])
  | .str [] => .error .indexError
  | .obj _ => .error .keyError
  | _ => .error .typeError

/-- Python `k in j` for a string `k`. -/
def pyContains (j : Json) (k : Str) : Except PyExc Bool :=
  match j with
  | .obj fs => .ok (fs.any (fun p => p.1 == k))
  | .arr xs => .ok (xs.any (fun x => match x with | .str s => s == k | _ => false))
  | .str s => .ok (pyIn k s)
  | _ => .error .typeError

/-- Python `for x in j`: the sequence iterated over. -/
def pyIterL (j : Json) : Except PyExc (List Json) :=
  match j with
  | .arr xs => .ok xs
  | .obj fs => .ok (fs.map (fun p => Json.str p.1))
  | .str s => .ok (s.map (fun c => Json.str [c]))
  | _ => .error .typeError

/-- Python `', '.join(xs)`: `TypeError` unless every element is a string. -/
def pyJoin : List Json → Except PyExc Str
  | [] => .ok []
  | [x] => match x with | .str s => .ok s | _ => .error .typeError
  | x :: rest =>
    match x with
    | .str s =>
      match pyJoin rest with
      | .ok r => .ok (s ++ toL ", " ++ r)
      | .error e => .error e
    | _ => .error .typeError

def optStr (o : Option Str) : Str := o.getD (toL "None")

/-- Python truthiness of an optional string (`if not err:`). -/
def optFalsy (o : Option Str) : Bool :=
  match o with
  | none => true
  | some s => s.isEmpty

/-- An HTTP response: status code, raw body bytes (`res.content`) and the
result of `res.json()` (`none` models an unparseable body). -/
structure HttpResp where
  status : Nat
  bytes : List Nat
  json : Option Json

/-- The network oracle: `.error m` models a network failure of
`requests.get` raising `RequestException(m)`. -/
abbrev Http := Str → Except Str HttpResp

/-- `requests.get(url)`. -/
def pyGet (http : Http) (url : Str) : Except PyExc HttpResp :=
  match http url with
  | .error m => .error (.requestException m)
  | .ok r => .ok r

/-- Model of `str(e)` for the `HTTPError` raised by `raise_for_status`. -/
def statusErrMsg (code : Nat) : Str := natToDec code ++ toL " Error"

/-- The collaborator call at `url` fails in one of the three ways the spec
enumerates: network failure, non-2xx status, or unparseable body. -/
def httpFailsAt (http : Http) (u : Str) : Prop :=
  match http u with
  | .error _ => True
  | .ok r => (400 ≤ r.status ∧ r.status < 600) ∨ r.json = none

/-- The image decoder oracle (`PIL.Image.open`): dimensions, or `none` when
the bytes are not an image. -/
abbrev ImgDec := List Nat → Option (Nat × Nat)

/-- Saved file contents: a JSON document (`json.dump`) or raw bytes. -/
inductive FileContent where
  | jsonFile (j : Json)
  | binFile (bytes : List Nat)

/-- The filesystem: newest write first, so a later write at the same path
shadows the earlier one (last-write-wins). -/
abbrev Fs := List (Str × FileContent)

def fsWrite (path : Str) (c : FileContent) (fs : Fs) : Fs := (path, c) :: fs

def fsRead (path : Str) (fs : Fs) : Option FileContent :=
  (fs.find? (fun p => p.1 == path)).map (fun p => p.2)

/-- Observable actions of one loop iteration. -/
inductive Event where
  | speak (msg : Str)
  | openUrl (url : Str)
  | displayImage (url : Str)
deriving DecidableEq

def isSpeakEv : Event → Bool
  | .speak _ => true
  | _ => false

def isSideEffectEv : Event → Bool
  | .speak _ => false
  | _ => true

/-- Does the first speech event precede the first side effect in a trace
(vacuously true when there is no side effect)? -/
def speakFirst (t : List Event) : Bool :=
  match t.findIdx? isSideEffectEv with
  | none => true
  | some i =>
    match t.findIdx? isSpeakEv with
    | none => false
    | some j => j < i

/-! ## DictionaryAPI (`src/Extra_.py`) -/

def dictBase : Str := toL "https://api.dictionaryapi.dev/api/v2/entries/en/"

structure DictState where
  entry : Option Json

namespace DictionaryAPI

/-- `find_word`: GET the entry, `raise_for_status`, parse, store `data[0]`.
`RequestException` (network, HTTPError, and — with requests ≥ 2.27 —
JSONDecodeError) and `IndexError`/`ValueError` are caught; anything else
escapes.  The state is returned on every path, updated only on success. -/
def find_word (http : Http) (word : Str) (st : DictState) :
    Except PyExc (Bool × Option Str) × DictState :=
  match http (dictBase ++ word) with
  | .error m => (.ok (false, some m), st)
  | .ok res =>
    if 400 ≤ res.status ∧ res.status < 600 then
      (.ok (false, some (statusErrMsg res.status)), st)
    else
      match res.json with
      | none => (.ok (false, some (toL "No entry found.")), st)
      | some data =>
        match pyIndex0 data with
        | .ok x => (.ok (true, none), ⟨some x⟩)
        | .error .indexError => (.ok (false, some (toL "No entry found.")), st)
        | .error .valueError => (.ok (false, some (toL "No entry found.")), st)
        | .error e => (.error e, st)

/-- `save`: dump the selected entry as JSON under `dictionary_entries/`. -/
def save (fs : Fs) (st : DictState) : Except PyExc (Bool × Str) × Fs :=
  match st.entry with
  | none => (.ok (false, toL "No word selected."), fs)
  | some entry =>
    if entry.falsy then (.ok (false, toL "No word selected."), fs)
    else
      match pyDictGet entry (toL "word") (.str (toL "entry")) with
      | .error e => (.error e, fs)
      | .ok w =>
        let path := toL "dictionary_entries/" ++ pyFormat w ++ toL ".json"
        (.ok (true, path), fsWrite path (.jsonFile entry) fs)

/-- One line of `meaning`: `"(" part ") " definition`. -/
def defLine (part : Json) (d : Json) : Except PyExc Str :=
  match pyDictGetOpt d (toL "definition") with
  | .error e => .error e
  | .ok v => .ok (toL "(" ++ pyFormat part ++ toL ") " ++ pyFormat v)

def innerDefs (part : Json) : List Json → Except PyExc (List Str)
  | [] => .ok []
  | d :: ds =>
    match defLine part d with
    | .error e => .error e
    | .ok line =>
      match innerDefs part ds with
      | .error e => .error e
      | .ok rest => .ok (line :: rest)

def outerDefs : List Json → Except PyExc (List Str)
  | [] => .ok []
  | m :: ms =>
    match pyDictGet m (toL "partOfSpeech") (.str []) with
    | .error e => .error e
    | .ok part =>
      match pyDictGet m (toL "definitions") (.arr []) with
      | .error e => .error e
      | .ok dsJ =>
        match pyIterL dsJ with
        | .error e => .error e
        | .ok ds =>
          match innerDefs part ds with
          | .error e => .error e
          | .ok lines =>
            match outerDefs ms with
            | .error e => .error e
            | .ok rest => .ok (lines ++ rest)

/-- `meaning`: all definition lines, or the fixed no-selection message. -/
def meaning (st : DictState) : Except PyExc (Option (List Str) × Option Str) :=
  match st.entry with
  | none => .ok (none, some (toL "No word selected."))
  | some entry =>
    if entry.falsy then .ok (none, some (toL "No word selected."))
    else
      match pyDictGet entry (toL "meanings") (.arr []) with
      | .error e => .error e
      | .ok msJ =>
        match pyIterL msJ with
        | .error e => .error e
        | .ok ms =>
          match outerDefs ms with
          | .error e => .error e
          | .ok defs => .ok (some defs, none)

def firstExampleIn : List Json → Except PyExc (Option Json)
  | [] => .ok none
  | d :: rest =>
    match pyDictGetOpt d (toL "example") with
    | .error e => .error e
    | .ok ex => if ex.falsy then firstExampleIn rest else .ok (some ex)

def firstExample : List Json → Except PyExc (Option Json)
  | [] => .ok none
  | m :: rest =>
    match pyDictGet m (toL "definitions") (.arr []) with
    | .error e => .error e
    | .ok dsJ =>
      match pyIterL dsJ with
      | .error e => .error e
      | .ok ds =>
        match firstExampleIn ds with
        | .error e => .error e
        | .ok (some ex) => .ok (some ex)
        | .ok none => firstExample rest

/-- `example`: the first truthy example, or the fixed messages. -/
def example' (st : DictState) : Except PyExc (Option Json × Option Str) :=
  match st.entry with
  | none => .ok (none, some (toL "No word selected."))
  | some entry =>
    if entry.falsy then .ok (none, some (toL "No word selected."))
    else
      match pyDictGet entry (toL "meanings") (.arr []) with
      | .error e => .error e
      | .ok msJ =>
        match pyIterL msJ with
        | .error e => .error e
        | .ok ms =>
          match firstExample ms with
          | .error e => .error e
          | .ok (some ex) => .ok (some ex, none)
          | .ok none => .ok (none, some (toL "No example found."))

/-- `link`: the canonical URL of the selected entry. -/
def link (st : DictState) : Except PyExc (Option Str × Option Str) :=
  match st.entry with
  | none => .ok (none, some (toL "No word selected."))
  | some entry =>
    if entry.falsy then .ok (none, some (toL "No word selected."))
    else
      match pyDictGetOpt entry (toL "word") with
      | .error e => .error e
      | .ok w => .ok (some (dictBase ++ pyFormat w), none)

end DictionaryAPI

/-! ## RickAndMortyAPI (`src/Lab_10.py`) -/

def rickBase : Str := toL "https://rickandmortyapi.com/api"

structure RickState where
  character : Option Json

/-- `_fetch` body on a full URL: catches every `RequestException`
(network, HTTPError from `raise_for_status`, and — with requests ≥ 2.27 —
JSONDecodeError) and converts it into an `error` object. -/
def fetchUrl (http : Http) (url : Str) : Json :=
  match http url with
  | .error m => .obj [(toL "error", .str m)]
  | .ok r =>
    if 400 ≤ r.status ∧ r.status < 600 then
      .obj [(toL "error", .str (statusErrMsg r.status))]
    else
      match r.json with
      | none => .obj [(toL "error", .str (toL "Invalid JSON"))]
      | some j => j

namespace RickAndMortyAPI

/-- `_fetch(endpoint)`: GET `BASE_URL/endpoint`. -/
def _fetch (http : Http) (endpoint : Str) : Json :=
  fetchUrl http (rickBase ++ toL "/" ++ endpoint)

/-- `_fetch_from_url`: like `_fetch` but any failure yields an empty dict. -/
def _fetch_from_url (http : Http) (url : Str) : Json :=
  match http url with
  | .error _ => .obj []
  | .ok r =>
    if 400 ≤ r.status ∧ r.status < 600 then .obj []
    else
      match r.json with
      | none => .obj []
      | some j => j

/-- `total = info.get('info', dict()).get('count', 826)` on the live count
query, with `826` as the hardcoded fallback; a non-integer count would make
`random.randint` raise `TypeError`. -/
def totalCount (http : Http) : Except PyExc Int :=
  match pyDictGet (_fetch http (toL "character")) (toL "info") (.obj []) with
  | .error e => .error e
  | .ok infoF =>
    match pyDictGet infoF (toL "count") (.num 826) with
    | .error e => .error e
    | .ok (.num n) => .ok n
    | .ok _ => .error .typeError

/-- `random.randint(lo, hi)`: uniform over the inclusive range, drawn from
the seed `rng`; raises `ValueError` on an empty range. -/
def randint (lo hi : Int) (rng : Nat) : Except PyExc Int :=
  if lo ≤ hi then .ok (lo + Int.ofNat (rng % (hi - lo + 1).toNat))
  else .error .valueError

/-- `char_id = random.randint(1, total)`. -/
def drawnId (http : Http) (rng : Nat) : Except PyExc Int :=
  match totalCount http with
  | .error e => .error e
  | .ok total => randint 1 total rng

/-- `random_character`: draw an id, fetch it, and store the record on
success.  The state is returned on every path (including raises). -/
def random_character (http : Http) (rng : Nat) (st : RickState) :
    Except PyExc (Option Json × Option Str) × RickState :=
  match drawnId http rng with
  | .error e => (.error e, st)
  | .ok char_id =>
    let data := _fetch http (toL "character/" ++ intToDec char_id)
    match pyContains data (toL "error") with
    | .error e => (.error e, st)
    | .ok true =>
      match pySubscript data (toL "error") with
      | .error e => (.error e, st)
      | .ok msgJ => (.ok (none, some (pyFormat msgJ)), st)
    | .ok false =>
      let st' : RickState := ⟨some data⟩
      match pySubscript data (toL "name") with
      | .error e => (.error e, st')
      | .ok nm => (.ok (some nm, none), st')

/-- `save_image`: the image bytes are fetched with a bare `requests.get`
(no try/except, no `raise_for_status`), written under `images/`. -/
def save_image (http : Http) (fs : Fs) (st : RickState) :
    Except PyExc (Option Str × Option Str) × Fs :=
  match st.character with
  | none => (.ok (none, some (toL "Character not selected.")), fs)
  | some ch =>
    if ch.falsy then (.ok (none, some (toL "Character not selected.")), fs)
    else
      match pySubscript ch (toL "image") with
      | .error e => (.error e, fs)
      | .ok (.str url) =>
        match pyGet http url with
        | .error e => (.error e, fs)
        | .ok res =>
          let data := res.bytes
          match pySubscript ch (toL "name") with
          | .error e => (.error e, fs)
          | .ok (.str nm) =>
            let safe_name :=
              pyStrip (nm.filter (fun c => c.isAlphanum || c == ' ' || c == '_'))
            let path := toL "images/" ++ safe_name ++ toL ".jpg"
            (.ok (some path, none), fsWrite path (.binFile data) fs)
          | .ok _ => (.error .typeError, fs)
      | .ok _ => (.error .typeError, fs)

/-- `first_episode`: name of the first episode of the selected character. -/
def first_episode (http : Http) (st : RickState) :
    Except PyExc (Option Json × Option Str) :=
  match st.character with
  | none => .ok (none, some (toL "Character not selected."))
  | some ch =>
    if ch.falsy then .ok (none, some (toL "Character not selected."))
    else
      match pySubscript ch (toL "episode") with
      | .error e => .error e
      | .ok eps =>
        match pyIndex0 eps with
        | .error e => .error e
        | .ok (.str url) =>
          let ep := _fetch_from_url http url
          match pyDictGetOpt ep (toL "name") with
          | .error e => .error e
          | .ok nm => .ok (some nm, none)
        | .ok _ => .error .typeError

/-- `show_image`: bare `requests.get` of the image (raises on network
failure), decode, display.  The display event is the side effect performed
inside the handler, before the caller speaks the returned message. -/
def show_image (http : Http) (dec : ImgDec) (st : RickState) :
    Except PyExc (Option Str × Option Str) × List Event :=
  match st.character with
  | none => (.ok (none, some (toL "Character not selected.")), [])
  | some ch =>
    if ch.falsy then (.ok (none, some (toL "Character not selected.")), [])
    else
      match pySubscript ch (toL "image") with
      | .error e => (.error e, [])
      | .ok (.str url) =>
        match pyGet http url with
        | .error e => (.error e, [])
        | .ok res =>
          match dec res.bytes with
          | none => (.error .valueError, [])
          | some _ => (.ok (some (toL "Image displayed."), none), [.displayImage url])
      | .ok _ => (.error .typeError, [])

/-- `image_resolution`: bare `requests.get` of the image, decode, format. -/
def image_resolution (http : Http) (dec : ImgDec) (st : RickState) :
    Except PyExc (Option Str × Option Str) :=
  match st.character with
  | none => .ok (none, some (toL "Character not selected."))
  | some ch =>
    if ch.falsy then .ok (none, some (toL "Character not selected."))
    else
      match pySubscript ch (toL "image") with
      | .error e => .error e
      | .ok (.str url) =>
        match pyGet http url with
        | .error e => .error e
        | .ok res =>
          match dec res.bytes with
          | none => .error .valueError
          | some (w, h) => .ok (some (natToDec w ++ toL "x" ++ natToDec h), none)
      | .ok _ => .error .typeError

/-- `origin`: `self.character['origin']['name']`. -/
def origin (st : RickState) : Except PyExc (Option Json × Option Str) :=
  match st.character with
  | none => .ok (none, some (toL "Character not selected."))
  | some ch =>
    if ch.falsy then .ok (none, some (toL "Character not selected."))
    else
      match pySubscript ch (toL "origin") with
      | .error e => .error e
      | .ok o =>
        match pySubscript o (toL "name") with
        | .error e => .error e
        | .ok n => .ok (some n, none)

/-- `location`: `self.character['location']['name']`. -/
def location (st : RickState) : Except PyExc (Option Json × Option Str) :=
  match st.character with
  | none => .ok (none, some (toL "Character not selected."))
  | some ch =>
    if ch.falsy then .ok (none, some (toL "Character not selected."))
    else
      match pySubscript ch (toL "location") with
      | .error e => .error e
      | .ok o =>
        match pySubscript o (toL "name") with
        | .error e => .error e
        | .ok n => .ok (some n, none)

def epNames (http : Http) : List Json → Except PyExc (List Json)
  | [] => .ok []
  | u :: rest =>
    match u with
    | .str url =>
      let data := _fetch_from_url http url
      match pyDictGetOpt data (toL "name") with
      | .error e => .error e
      | .ok nm =>
        match epNames http rest with
        | .error e => .error e
        | .ok tail => .ok (nm :: tail)
    | _ => .error .typeError

/-- `episodes_list`: the names of every episode of the selection. -/
def episodes_list (http : Http) (st : RickState) :
    Except PyExc (Option (List Json) × Option Str) :=
  match st.character with
  | none => .ok (none, some (toL "Character not selected."))
  | some ch =>
    if ch.falsy then .ok (none, some (toL "Character not selected."))
    else
      match pySubscript ch (toL "episode") with
      | .error e => .error e
      | .ok epsJ =>
        match pyIterL epsJ with
        | .error e => .error e
        | .ok eps =>
          match epNames http eps with
          | .error e => .error e
          | .ok names => .ok (some names, none)

end RickAndMortyAPI

/-! ## Command tables and routing -/

/-- `COMMANDS` of `Extra_.py` (bilingual alias table). -/
def extraCOMMANDS : List (Str × Str) :=
  [(toL "save", toL "save"), (toL "сохранить", toL "save"),
   (toL "meaning", toL "meaning"), (toL "значение", toL "meaning"),
   (toL "example", toL "example"), (toL "пример", toL "example"),
   (toL "link", toL "link"), (toL "ссылка", toL "link"),
   (toL "exit", toL "exit"), (toL "выход", toL "exit"), (toL "quit", toL "exit")]

/-- `COMMANDS` of `Lab_10.py`. -/
def lab10COMMANDS : List (Str × Str) :=
  [(toL "случайный", toL "random"), (toL "сохранить", toL "save"),
   (toL "эпизод", toL "first_ep"), (toL "показать", toL "show_img"),
   (toL "разрешение", toL "resolution"), (toL "происхождение", toL "origin"),
   (toL "локация", toL "location"), (toL "список эпизодов", toL "list_eps"),
   (toL "выход", toL "exit")]

def strLookup : List (Str × Str) → Str → Option Str
  | [], _ => none
  | (k, v) :: rest, key => if k == key then some v else strLookup rest key

/-- The configured Exit aliases of a table (entries mapped to `exit`). -/
def exitKeysOf (tbl : List (Str × Str)) : List Str :=
  (tbl.filter (fun p => p.2 == toL "exit")).map (fun p => p.1)

def findTrig : Str := toL "find "

def naitiTrig : Str := toL "найти "

/-- `Extra_.py` trigger parsing: `startswith` then `replace(trigger, '')`
then `strip`; `none` when no trigger matches. -/
def extraFindWord (text : Str) : Option Str :=
  if pyStartsWith findTrig text then some (pyStrip (pyReplaceDel findTrig text))
  else if pyStartsWith naitiTrig text then some (pyStrip (pyReplaceDel naitiTrig text))
  else none

/-- The elif chain of `Lab_10.py`'s dispatch loop, where matching is by
substring containment (`alias in cmd`) on the lowercased text. -/
inductive Lab10Cmd where
  | exitC | random | save | firstEp | listEps | showImg | resolution | origin
  | location | unknown
deriving DecidableEq

def lab10Route (text : Str) : Lab10Cmd :=
  let cmd := pyLower text
  if pyIn (toL "выход") cmd || pyIn (toL "прощаюсь") cmd then .exitC
  else if pyIn (toL "случайный") cmd then .random
  else if pyIn (toL "сохранить") cmd then .save
  else if pyIn (toL "эпизод") cmd then .firstEp
  else if pyIn (toL "список эпизодов") cmd then .listEps
  else if pyIn (toL "показать") cmd then .showImg
  else if pyIn (toL "разрешение") cmd then .resolution
  else if pyIn (toL "происхождение") cmd then .origin
  else if pyIn (toL "локация") cmd then .location
  else .unknown

/-- The phrases the `Lab_10.py` chain tests, in checking order. -/
def lab10Checked : List Str :=
  [toL "выход", toL "прощаюсь", toL "случайный", toL "сохранить", toL "эпизод",
   toL "список эпизодов", toL "показать", toL "разрешение", toL "происхождение",
   toL "локация"]

/-! ## Session loops -/

inductive Ctl where
  | next
  | halt
  | crash (e : PyExc)
deriving DecidableEq

inductive LoopEnd where
  | stopped
  | exhausted
  | crashed (e : PyExc)
deriving DecidableEq

structure ExtraOut where
  ev : List Event
  st : DictState
  fs : Fs
  ctl : Ctl

def qc : Char := Char.ofNat 39

/-- The command half of `Extra_.py`'s loop body (after trigger parsing). -/
def extraCmdStep (http : Http) (st : DictState) (fs : Fs) (text : Str) : ExtraOut :=
  let cmd := pyStrip text
  match strLookup extraCOMMANDS cmd with
  | some a =>
    if a == toL "exit" then ⟨[.speak (toL "Goodbye!")], st, fs, .halt⟩
    else if a == toL "save" then
      match DictionaryAPI.save fs st with
      | (.ok (ok?, res), fs') =>
        ⟨[.speak (if ok? then toL "Saved to " ++ res else res)], st, fs', .next⟩
      | (.error e, fs') => ⟨[], st, fs', .crash e⟩
    else if a == toL "meaning" then
      match DictionaryAPI.meaning st with
      | .ok (defsOpt, err) =>
        match defsOpt with
        | some (d :: ds) => ⟨(d :: ds).map Event.speak, st, fs, .next⟩
        | some [] => ⟨[.speak (optStr err)], st, fs, .next⟩
        | none => ⟨[.speak (optStr err)], st, fs, .next⟩
      | .error e => ⟨[], st, fs, .crash e⟩
    else if a == toL "example" then
      match DictionaryAPI.example' st with
      | .ok (exOpt, err) =>
        let msg :=
          match exOpt with
          | some j => if j.falsy then optStr err else pyFormat j
          | none => optStr err
        ⟨[.speak msg], st, fs, .next⟩
      | .error e => ⟨[], st, fs, .crash e⟩
    else if a == toL "link" then
      match DictionaryAPI.link st with
      | .ok (urlOpt, err) =>
        match urlOpt with
        | some url =>
          if url.isEmpty then ⟨[.speak (optStr err)], st, fs, .next⟩
          else ⟨[.openUrl url, .speak (toL "Opened link: " ++ url)], st, fs, .next⟩
        | none => ⟨[.speak (optStr err)], st, fs, .next⟩
      | .error e => ⟨[], st, fs, .crash e⟩
    else ⟨[], st, fs, .next⟩
  | none =>
    ⟨[.speak (toL "Unknown command. Use save/сохранить, meaning/значение, example/пример, link/ссылка, or exit/выход.")],
     st, fs, .next⟩

/-- One iteration of `Extra_.py`'s loop body on an utterance. -/
def extraStep (http : Http) (st : DictState) (fs : Fs) (text : Str) : ExtraOut :=
  match extraFindWord text with
  | some w =>
    if w.isEmpty then extraCmdStep http st fs text
    else
      match DictionaryAPI.find_word http w st with
      | (.ok (ok?, err), st') =>
        let msg :=
          if ok? then toL "Word " ++ [qc] ++ w ++ [qc] ++ toL " found."
          else toL "Error: " ++ optStr err
        ⟨[.speak msg], st', fs, .next⟩
      | (.error e, st') => ⟨[], st', fs, .crash e⟩
  | none => extraCmdStep http st fs text

def extraLoop (http : Http) : List Str → DictState → Fs → List Event × LoopEnd
  | [], _, _ => ([], .exhausted)
  | t :: rest, st, fs =>
    let o := extraStep http st fs t
    match o.ctl with
    | .halt => (o.ev, .stopped)
    | .crash e => (o.ev, .crashed e)
    | .next =>
      let r := extraLoop http rest o.st o.fs
      (o.ev ++ r.1, r.2)

structure Lab10Out where
  ev : List Event
  st : RickState
  fs : Fs
  ctl : Ctl

/-- One iteration of `Lab_10.py`'s loop body on an utterance. -/
def lab10Step (http : Http) (dec : ImgDec) (rng : Nat) (st : RickState) (fs : Fs)
    (text : Str) : Lab10Out :=
  match lab10Route text with
  | .exitC => ⟨[.speak (toL "До скорых встреч!")], st, fs, .halt⟩
  | .random =>
    match RickAndMortyAPI.random_character http rng st with
    | (.ok (nameOpt, err), st') =>
      let msg :=
        if optFalsy err then
          match nameOpt with
          | some j => pyFormat j
          | none => toL "None"
        else optStr err
      ⟨[.speak msg], st', fs, .next⟩
    | (.error e, st') => ⟨[], st', fs, .crash e⟩
  | .save =>
    match RickAndMortyAPI.save_image http fs st with
    | (.ok (pathOpt, err), fs') =>
      let msg :=
        if optFalsy err then toL "Сохранено: " ++ optStr pathOpt else optStr err
      ⟨[.speak msg], st, fs', .next⟩
    | (.error e, fs') => ⟨[], st, fs', .crash e⟩
  | .firstEp =>
    match RickAndMortyAPI.first_episode http st with
    | .ok (epOpt, err) =>
      let msg :=
        if optFalsy err then
          match epOpt with
          | some j => pyFormat j
          | none => toL "None"
        else optStr err
      ⟨[.speak msg], st, fs, .next⟩
    | .error e => ⟨[], st, fs, .crash e⟩
  | .listEps =>
    match RickAndMortyAPI.episodes_list http st with
    | .ok (epsOpt, err) =>
      if optFalsy err then
        match pyJoin ((epsOpt).getD []) with
        | .ok s => ⟨[.speak s], st, fs, .next⟩
        | .error e => ⟨[], st, fs, .crash e⟩
      else ⟨[.speak (optStr err)], st, fs, .next⟩
    | .error e => ⟨[], st, fs, .crash e⟩
  | .showImg =>
    match RickAndMortyAPI.show_image http dec st with
    | (.ok (msgOpt, err), evs) =>
      let msg := if optFalsy err then optStr msgOpt else optStr err
      ⟨evs ++ [.speak msg], st, fs, .next⟩
    | (.error e, evs) => ⟨evs, st, fs, .crash e⟩
  | .resolution =>
    match RickAndMortyAPI.image_resolution http dec st with
    | .ok (resOpt, err) =>
      let msg :=
        if optFalsy err then toL "Разрешение: " ++ optStr resOpt else optStr err
      ⟨[.speak msg], st, fs, .next⟩
    | .error e => ⟨[], st, fs, .crash e⟩
  | .origin =>
    match RickAndMortyAPI.origin st with
    | .ok (oOpt, err) =>
      let msg :=
        if optFalsy err then
          match oOpt with
          | some j => pyFormat j
          | none => toL "None"
        else optStr err
      ⟨[.speak msg], st, fs, .next⟩
    | .error e => ⟨[], st, fs, .crash e⟩
  | .location =>
    match RickAndMortyAPI.location st with
    | .ok (oOpt, err) =>
      let msg :=
        if optFalsy err then
          match oOpt with
          | some j => pyFormat j
          | none => toL "None"
        else optStr err
      ⟨[.speak msg], st, fs, .next⟩
    | .error e => ⟨[], st, fs, .crash e⟩
  | .unknown => ⟨[.speak (toL "Команда не распознана. Попробуйте снова.")], st, fs, .next⟩

def lab10Loop (http : Http) (dec : ImgDec) :
    List Nat → List Str → RickState → Fs → List Event × LoopEnd
  | _, [], _, _ => ([], .exhausted)
  | rtape, t :: rest, st, fs =>
    let o := lab10Step http dec (rtape.headD 0) st fs t
    match o.ctl with
    | .halt => (o.ev, .stopped)
    | .crash e => (o.ev, .crashed e)
    | .next =>
      let r := lab10Loop http dec rtape.tail rest o.st o.fs
      (o.ev ++ r.1, r.2)

/-- One iteration of `main1.py`'s loop body: stop on the literal `закрыть`,
otherwise only print. -/
def main1Step (text : Str) : List Event × Ctl :=
  if text == toL "закрыть" then ([.speak (toL "Бывай, ихтиандр")], .halt)
  else ([], .next)

def main1Loop : List Str → List Event × LoopEnd
  | [] => ([], .exhausted)
  | t :: rest =>
    let o := main1Step t
    match o.2 with
    | .halt => (o.1, .stopped)
    | .crash e => (o.1, .crashed e)
    | .next =>
      let r := main1Loop rest
      (o.1 ++ r.1, r.2)

/-! ## Recognizer listen stages -/

/-- One decoder interaction: the frame bytes fed to `AcceptWaveform` and,
when the endpoint detector finalized, the hypothesis text of `Result()`. -/
structure DecEvent where
  frame : List Nat
  fin : Option Str
deriving DecidableEq

/-- `Lab_10.py` `listen`: yield the stripped text of finalizations whose
stripped text is non-empty. -/
def lab10Listen (evs : List DecEvent) : List Str :=
  evs.filterMap (fun e =>
    match e.fin with
    | some t =>
      let t' := pyStrip t
      if t'.isEmpty then none else some t'
    | none => none)

/-- `Extra_.py` `listen`: like `Lab_10.py` but yields the lowercased text. -/
def extraListen (evs : List DecEvent) : List Str :=
  evs.filterMap (fun e =>
    match e.fin with
    | some t =>
      let t' := pyStrip t
      if t'.isEmpty then none else some (pyLower t')
    | none => none)

/-- `main1.py` `listen`: yield the raw text of finalizations with truthy
text, additionally requiring a non-empty frame. -/
def main1Listen (evs : List DecEvent) : List Str :=
  evs.filterMap (fun e =>
    match e.fin with
    | some t => if e.frame.length > 0 && !t.isEmpty then some t else none
    | none => none)

/-! ## Concrete fixtures used by counterexamples and witnesses -/

/-- A network oracle on which every request fails. -/
def httpDown : Http := fun _ => .error (toL "connection error")

/-- A network oracle on which every request succeeds with a small body. -/
def httpImgOk : Http := fun _ => .ok ⟨200, [1, 2, 3], some .null⟩

def decNone : ImgDec := fun _ => none

def decOk : ImgDec := fun _ => some (3, 4)

def entryHello : Json := .obj [(toL "word", .str (toL "hello"))]

def charRick : Json :=
  .obj [(toL "name", .str (toL "Rick Sanchez")),
        (toL "image", .str (toL "https://img.example/rick.jpeg"))]

/-- An oracle serving a one-element dictionary response for every URL. -/
def httpDict : Http := fun _ => .ok ⟨200, [], some (.arr [entryHello])⟩

/-! ## Helper lemmas -/

theorem fsRead_fsWrite (p : Str) (c : FileContent) (fs : Fs) :
    fsRead p (fsWrite p c fs) = some c := by
  simp [fsRead, fsWrite, List.find?]

theorem strLookup_isSome_iff (l : List (Str × Str)) (key : Str) :
    (strLookup l key).isSome = true ↔ key ∈ l.map Prod.fst := by
  induction l with
  | nil => simp [strLookup]
  | cons p rest ih =>
    obtain ⟨k, v⟩ := p
    simp only [strLookup, List.map_cons, List.mem_cons]
    by_cases h : (k == key) = true
    · rw [if_pos h]
      simp only [Option.isSome_some, true_iff]
      exact Or.inl (eq_of_beq h).symm
    · rw [if_neg h]
      rw [ih]
      have hne : key ≠ k := fun he => h (by simp [he])
      simp [hne]

theorem pyStartsWith_append (p r : Str) : pyStartsWith p (p ++ r) = true := by
  induction p with
  | nil => rfl
  | cons a ps ih => simp [pyStartsWith, ih]

theorem pyReplaceDelF_nil (pat : Str) (fuel : Nat) : pyReplaceDelF pat fuel [] = [] := by
  cases fuel <;> rfl

theorem lengthDropLe (n : Nat) (l : Str) : (l.drop n).length ≤ l.length := by
  rw [List.length_drop]
  omega

theorem pyReplaceDelF_fuel_irrel (pat : Str) :
    ∀ f₁ f₂ s, s.length ≤ f₁ → s.length ≤ f₂ →
      pyReplaceDelF pat f₁ s = pyReplaceDelF pat f₂ s := by
  intro f₁
  induction f₁ with
  | zero =>
    intro f₂ s h1 _h2
    have : s = [] := List.length_eq_zero.mp (Nat.le_zero.mp h1)
    subst this
    rw [pyReplaceDelF_nil, pyReplaceDelF_nil]
  | succ f ih =>
    intro f₂ s h1 h2
    cases s with
    | nil => rw [pyReplaceDelF_nil, pyReplaceDelF_nil]
    | cons c rest =>
      cases f₂ with
      | zero => simp at h2
      | succ f₂' =>
        simp only [pyReplaceDelF]
        simp only [List.length_cons, Nat.succ_le_succ_iff] at h1 h2
        by_cases hp : pyStartsWith pat (c :: rest) = true
        · rw [if_pos hp, if_pos hp]
          exact ih f₂' _ (le_trans (lengthDropLe _ _) h1)
            (le_trans (lengthDropLe _ _) h2)
        · rw [if_neg hp, if_neg hp, ih f₂' rest h1 h2]

theorem pyReplaceDel_cons (pat : Str) (c : Char) (rest : Str) :
    pyReplaceDel pat (c :: rest) =
      if pyStartsWith pat (c :: rest) then pyReplaceDel pat (rest.drop (pat.length - 1))
      else c :: pyReplaceDel pat rest := by
  unfold pyReplaceDel
  simp only [List.length_cons, pyReplaceDelF]
  by_cases hp : pyStartsWith pat (c :: rest) = true
  · rw [if_pos hp, if_pos hp]
    exact pyReplaceDelF_fuel_irrel pat _ _ _ (lengthDropLe _ _) le_rfl
  · rw [if_neg hp, if_neg hp]

theorem pyReplaceDel_append (a : Char) (ps r : Str) :
    pyReplaceDel (a :: ps) ((a :: ps) ++ r) = pyReplaceDel (a :: ps) r := by
  rw [List.cons_append, pyReplaceDel_cons]
  rw [if_pos (show pyStartsWith (a :: ps) (a :: (ps ++ r)) = true from
        pyStartsWith_append (a :: ps) r)]
  congr 1
  simp [List.drop_left']

theorem pyReplaceDel_no_occur (p s : Str) (h : pyIn p s = false) :
    pyReplaceDel p s = s := by
  induction s with
  | nil => rfl
  | cons c cs ih =>
    rw [pyIn, Bool.or_eq_false_iff] at h
    rw [pyReplaceDel_cons, if_neg (by simp [h.1])]
    rw [ih h.2]

/-! ## Claim theorems -/

/-- Claim C6: every selection-dependent command (save, meaning, example,
link; save-image, first-episode, show-image, resolution, origin, location,
episodes-list) invoked with no entity selected returns a failure result
carrying the fixed nothing-selected message and does not raise. -/
theorem C6_nothing_selected (http : Http) (dec : ImgDec) (fs : Fs) :
    DictionaryAPI.save fs ⟨none⟩ = (.ok (false, toL "No word selected."), fs) ∧
    DictionaryAPI.meaning ⟨none⟩ = .ok (none, some (toL "No word selected.")) ∧
    DictionaryAPI.example' ⟨none⟩ = .ok (none, some (toL "No word selected.")) ∧
    DictionaryAPI.link ⟨none⟩ = .ok (none, some (toL "No word selected.")) ∧
    RickAndMortyAPI.save_image http fs ⟨none⟩ =
      (.ok (none, some (toL "Character not selected.")), fs) ∧
    RickAndMortyAPI.first_episode http ⟨none⟩ =
      .ok (none, some (toL "Character not selected.")) ∧
    RickAndMortyAPI.show_image http dec ⟨none⟩ =
      (.ok (none, some (toL "Character not selected.")), []) ∧
    RickAndMortyAPI.image_resolution http dec ⟨none⟩ =
      .ok (none, some (toL "Character not selected.")) ∧
    RickAndMortyAPI.origin ⟨none⟩ = .ok (none, some (toL "Character not selected.")) ∧
    RickAndMortyAPI.location ⟨none⟩ = .ok (none, some (toL "Character not selected.")) ∧
    RickAndMortyAPI.episodes_list http ⟨none⟩ =
      .ok (none, some (toL "Character not selected.")) :=
  ⟨rfl, rfl, rfl, rfl, rfl, rfl, rfl, rfl, rfl, rfl, rfl⟩

/-- Claim C5: for every configured Exit alias in every configured locale,
dispatching that utterance renders the goodbye message and stops the loop,
with no further utterance read or dispatched (the result is independent of
the remaining input). -/
theorem C5_exit_stops_loop :
    (∀ (a : Str) (rest : List Str) (st : DictState) (fs : Fs) (http : Http),
        a ∈ exitKeysOf extraCOMMANDS →
        extraLoop http (a :: rest) st fs = ([Event.speak (toL "Goodbye!")], LoopEnd.stopped)) ∧
    (∀ (a : Str) (rest : List Str) (st : RickState) (fs : Fs) (http : Http)
        (dec : ImgDec) (rtape : List Nat),
        a ∈ exitKeysOf lab10COMMANDS →
        lab10Loop http dec rtape (a :: rest) st fs =
          ([Event.speak (toL "До скорых встреч!")], LoopEnd.stopped)) ∧
    (∀ rest : List Str,
        main1Loop (toL "закрыть" :: rest) =
          ([Event.speak (toL "Бывай, ихтиандр")], LoopEnd.stopped)) := by
  refine ⟨?_, ?_, ?_⟩
  · intro a rest st fs http h
    rw [show exitKeysOf extraCOMMANDS = [toL "exit", toL "выход", toL "quit"] from by decide] at h
    simp only [List.mem_cons, List.not_mem_nil, or_false] at h
    rcases h with h | h | h <;> subst h <;> rfl
  · intro a rest st fs http dec rtape h
    rw [show exitKeysOf lab10COMMANDS = [toL "выход"] from by decide] at h
    simp only [List.mem_cons, List.not_mem_nil, or_false] at h
    subst h
    rfl
  · intro rest
    rfl

/-- Claim C1 counterexample: in `Lab_10.py` the utterance `моя локация` is
not equal to any configured alias phrase, yet it is dispatched (to the
location command), because matching is by substring containment rather than
exact-match lookup. -/
theorem C1_counterexample :
    lab10Route (toL "моя локация") = Lab10Cmd.location ∧
    (toL "моя локация") ∉ lab10COMMANDS.map Prod.fst := by
  decide

/-- Claim C1 amended: the dictionary variant (`Extra_.py`) does match by
exact lookup — for a non-trigger utterance the alias table matches iff the
trimmed utterance equals a configured alias phrase — but the Rick-and-Morty
variant (`Lab_10.py`) dispatches a command iff one of the checked phrases
occurs anywhere as a substring of the lowercased utterance. -/
theorem C1_amended_matching :
    (∀ t : Str, extraFindWord t = none →
        ((strLookup extraCOMMANDS (pyStrip t)).isSome = true ↔
          pyStrip t ∈ extraCOMMANDS.map Prod.fst)) ∧
    (∀ t : Str, lab10Route t ≠ Lab10Cmd.unknown ↔
        lab10Checked.any (fun a => pyIn a (pyLower t)) = true) := by
  constructor
  · intro t _h
    exact strLookup_isSome_iff extraCOMMANDS (pyStrip t)
  · intro t
    unfold lab10Route lab10Checked
    simp only [List.any_cons, List.any_nil, Bool.or_false, Bool.or_eq_true]
    split_ifs with h1 h2 h3 h4 h5 h6 h7 h8 h9 <;> simp_all <;> tauto

/-- Claim C1 witness: the amended statement applied at the utterance
`link` (exact match in the dictionary table) and at `моя локация`. -/
theorem C1_amended_matching_witness :
    (strLookup extraCOMMANDS (pyStrip (toL "link"))).isSome = true ∧
    lab10Route (toL "моя локация") ≠ Lab10Cmd.unknown := by
  constructor
  · exact (C1_amended_matching.1 (toL "link") (by decide)).mpr (by decide)
  · exact (C1_amended_matching.2 (toL "моя локация")).mpr (by decide)

/-- Claim C2 counterexample: for `find find me` the router's parameter is
`me` (because `replace` deletes every occurrence of the trigger), while the
trimmed remainder after the trigger prefix is `find me`. -/
theorem C2_counterexample :
    extraFindWord (toL "find find me") = some (toL "me") ∧
    pyStrip ((toL "find find me").drop findTrig.length) = toL "find me" ∧
    toL "me" ≠ toL "find me" := by
  decide

/-- Claim C2 amended: for an utterance beginning with a trigger phrase the
parameter is the utterance with every occurrence of that trigger deleted and
the result trimmed; this coincides with the trimmed remainder exactly when
the trigger does not reoccur in the remainder.  The `find ` trigger is
checked first. -/
theorem C2_amended_trigger_param :
    (∀ rest : Str, pyIn findTrig rest = false →
        extraFindWord (findTrig ++ rest) = some (pyStrip rest)) ∧
    (∀ rest : Str, pyIn naitiTrig rest = false →
        extraFindWord (naitiTrig ++ rest) = some (pyStrip rest)) ∧
    (∀ t : Str, pyStartsWith findTrig t = true →
        extraFindWord t = some (pyStrip (pyReplaceDel findTrig t))) := by
  refine ⟨?_, ?_, ?_⟩
  · intro rest h
    unfold extraFindWord
    rw [if_pos (pyStartsWith_append findTrig rest)]
    have e : pyReplaceDel findTrig (findTrig ++ rest) = pyReplaceDel findTrig rest :=
      pyReplaceDel_append 'f' (toL "ind ") rest
    rw [e, pyReplaceDel_no_occur findTrig rest h]
  · intro rest h
    have h1 : pyStartsWith findTrig (naitiTrig ++ rest) = false := by
      rw [show naitiTrig = 'н' :: toL "айти " from rfl, List.cons_append,
          show findTrig = 'f' :: toL "ind " from rfl, pyStartsWith,
          show ('f' == 'н') = false from by decide, Bool.false_and]
    unfold extraFindWord
    rw [h1]
    simp only [Bool.false_eq_true, if_false]
    rw [if_pos (pyStartsWith_append naitiTrig rest)]
    have e : pyReplaceDel naitiTrig (naitiTrig ++ rest) = pyReplaceDel naitiTrig rest :=
      pyReplaceDel_append 'н' (toL "айти ") rest
    rw [e, pyReplaceDel_no_occur naitiTrig rest h]
  · intro t hst
    unfold extraFindWord
    rw [if_pos hst]

/-- Claim C2 witness: the amended statement at `find hello`, matching the
spec's Scenario A parameter extraction. -/
theorem C2_amended_trigger_param_witness :
    extraFindWord (toL "find hello") = some (toL "hello") := by
  have h := C2_amended_trigger_param.1 (toL "hello") (by decide)
  exact (show (toL "find hello") = findTrig ++ toL "hello" from by decide) ▸ h

theorem httpFailsAt_cases (http : Http) (u : Str) (h : httpFailsAt http u) :
    (∃ m, http u = .error m) ∨
    (∃ r, http u = .ok r ∧ ((400 ≤ r.status ∧ r.status < 600) ∨ r.json = none)) := by
  unfold httpFailsAt at h
  rcases hh : http u with m | r
  · exact Or.inl ⟨m, rfl⟩
  · rw [hh] at h
    exact Or.inr ⟨r, rfl, h⟩

theorem fetchUrl_fail (http : Http) (u : Str) (h : httpFailsAt http u) :
    ∃ m, fetchUrl http u = Json.obj [(toL "error", Json.str m)] := by
  rcases httpFailsAt_cases http u h with ⟨m, hm⟩ | ⟨r, hr, hc⟩
  · exact ⟨m, by unfold fetchUrl; rw [hm]⟩
  · by_cases hs : 400 ≤ r.status ∧ r.status < 600
    · exact ⟨statusErrMsg r.status,
        by unfold fetchUrl; rw [hr]; dsimp only; rw [if_pos hs]⟩
    · have hj : r.json = none := hc.resolve_left hs
      exact ⟨toL "Invalid JSON",
        by unfold fetchUrl; rw [hr]; dsimp only; rw [if_neg hs, hj]⟩

/-- Claim C7: each listen stage yields an utterance exactly for the decoder
interactions whose endpoint detector finalized a hypothesis with non-empty
(after stripping, where the variant strips) text; nothing is yielded for
non-finalizing frames, and empty-text finalizations are suppressed.  For
`main1.py` the frames are assumed non-empty, as `stream.read(4000)` blocks
until the frame is filled. -/
theorem C7_listen_characterization :
    (∀ (evs : List DecEvent) (u : Str),
        u ∈ lab10Listen evs ↔
          ∃ e ∈ evs, ∃ t, e.fin = some t ∧ pyStrip t = u ∧ u ≠ []) ∧
    (∀ (evs : List DecEvent) (u : Str),
        u ∈ extraListen evs ↔
          ∃ e ∈ evs, ∃ t, e.fin = some t ∧ pyStrip t ≠ [] ∧ u = pyLower (pyStrip t)) ∧
    (∀ (evs : List DecEvent) (u : Str), (∀ e ∈ evs, e.frame ≠ []) →
        (u ∈ main1Listen evs ↔ ∃ e ∈ evs, e.fin = some u ∧ u ≠ [])) := by
  refine ⟨?_, ?_, ?_⟩
  · intro evs u
    rw [lab10Listen, List.mem_filterMap]
    constructor
    · rintro ⟨e, he, hf⟩
      split at hf
      · next t heq =>
        dsimp only at hf
        split at hf
        · exact absurd hf (by simp)
        · next hne =>
          refine ⟨e, he, t, heq, by injection hf, ?_⟩
          have := (Option.some_injective _).eq_iff.mp hf
          rw [← this]
          simpa [List.isEmpty_iff] using hne
      · exact absurd hf (by simp)
    · rintro ⟨e, he, t, hfin, hstrip, hne⟩
      refine ⟨e, he, ?_⟩
      rw [hfin]
      dsimp only
      rw [hstrip, if_neg (by simpa [List.isEmpty_iff] using hne)]
  · intro evs u
    rw [extraListen, List.mem_filterMap]
    constructor
    · rintro ⟨e, he, hf⟩
      split at hf
      · next t heq =>
        dsimp only at hf
        split at hf
        · exact absurd hf (by simp)
        · next hne =>
          refine ⟨e, he, t, heq, by simpa [List.isEmpty_iff] using hne, ?_⟩
          exact ((Option.some_injective _).eq_iff.mp hf).symm
      · exact absurd hf (by simp)
    · rintro ⟨e, he, t, hfin, hne, hu⟩
      refine ⟨e, he, ?_⟩
      rw [hfin]
      dsimp only
      rw [if_neg (by simpa [List.isEmpty_iff] using hne), hu]
  · intro evs u hframes
    rw [main1Listen, List.mem_filterMap]
    constructor
    · rintro ⟨e, he, hf⟩
      split at hf
      · next t heq =>
        split at hf
        · next hc =>
          rw [Bool.and_eq_true] at hc
          refine ⟨e, he, by rw [heq, (Option.some_injective _).eq_iff.mp hf], ?_⟩
          have h2 := hc.2
          rw [Bool.not_eq_eq_eq_not, Bool.not_true] at h2
          have := (Option.some_injective _).eq_iff.mp hf
          rw [← this]
          simpa [List.isEmpty_iff] using h2
        · exact absurd hf (by simp)
      · exact absurd hf (by simp)
    · rintro ⟨e, he, hfin, hne⟩
      refine ⟨e, he, ?_⟩
      rw [hfin]
      dsimp only
      have hfr : e.frame.length > 0 := List.length_pos.mpr (hframes e he)
      have hcond : (decide (e.frame.length > 0) && !u.isEmpty) = true := by
        rw [Bool.and_eq_true]
        refine ⟨decide_eq_true hfr, ?_⟩
        cases u with
        | nil => exact absurd rfl hne
        | cons a l => rfl
      rw [if_pos hcond]

/-- Claim C7 witness: the characterization applied to a concrete event list
containing a finalization with text ` hi `, a non-finalizing frame, and a
whitespace-only finalization. -/
theorem C7_listen_characterization_witness :
    (∀ e ∈ [(⟨[1], some (toL " hi ")⟩ : DecEvent), ⟨[1], none⟩, ⟨[1], some (toL "  ")⟩],
        e.frame ≠ []) ∧
    toL "hi" ∈ lab10Listen [⟨[1], some (toL " hi ")⟩, ⟨[1], none⟩, ⟨[1], some (toL "  ")⟩] ∧
    toL " hi " ∈ main1Listen [⟨[1], some (toL " hi ")⟩, ⟨[1], none⟩, ⟨[1], some (toL "  ")⟩] := by
  refine ⟨by decide, ?_, ?_⟩
  · exact (C7_listen_characterization.1 _ _).mpr
      ⟨⟨[1], some (toL " hi ")⟩, by decide, toL " hi ", rfl, by decide, by decide⟩
  · exact (C7_listen_characterization.2.2 _ _ (by decide)).mpr
      ⟨⟨[1], some (toL " hi ")⟩, by decide, rfl, by decide⟩

/-- Claim C3 counterexample: with a selected character and a network oracle
on which the image request fails, `show_image` and `save_image` raise the
`RequestException` across the handler boundary instead of converting it to
an error message (the `requests.get` on the image URL is unguarded). -/
theorem C3_counterexample :
    RickAndMortyAPI.show_image httpDown decOk ⟨some charRick⟩ =
      (.error (.requestException (toL "connection error")), []) ∧
    RickAndMortyAPI.save_image httpDown [] ⟨some charRick⟩ =
      (.error (.requestException (toL "connection error")), []) :=
  ⟨rfl, rfl⟩

/-- Claim C3 amended: `DictionaryAPI.find_word` converts every enumerated
collaborator failure (network error, non-2xx, unparseable body) into a
`(value, errorMessage)` pair without raising, but the image-fetching
handlers of `Lab_10.py` call `requests.get` unguarded, so a network failure
there raises a `RequestException` across the handler boundary. -/
theorem C3_amended_error_boundary :
    (∀ (http : Http) (w : Str) (st : DictState),
        httpFailsAt http (dictBase ++ w) →
        ∃ m, DictionaryAPI.find_word http w st = (.ok (false, some m), st)) ∧
    (∀ (http : Http) (dec : ImgDec) (ch : Json) (url m : Str),
        ch.falsy = false →
        pySubscript ch (toL "image") = .ok (.str url) →
        http url = .error m →
        RickAndMortyAPI.show_image http dec ⟨some ch⟩ =
          (.error (.requestException m), [])) := by
  constructor
  · intro http w st hfail
    rcases httpFailsAt_cases http (dictBase ++ w) hfail with ⟨m, hm⟩ | ⟨r, hr, hc⟩
    · exact ⟨m, by unfold DictionaryAPI.find_word; rw [hm]⟩
    · by_cases hs : 400 ≤ r.status ∧ r.status < 600
      · exact ⟨statusErrMsg r.status,
          by unfold DictionaryAPI.find_word; rw [hr]; dsimp only; rw [if_pos hs]⟩
      · have hj : r.json = none := hc.resolve_left hs
        exact ⟨toL "No entry found.",
          by unfold DictionaryAPI.find_word; rw [hr]; dsimp only; rw [if_neg hs, hj]⟩
  · intro http dec ch url m hfalsy himg hurl
    unfold RickAndMortyAPI.show_image
    dsimp only
    rw [hfalsy]
    simp only [Bool.false_eq_true, if_false]
    rw [himg]
    dsimp only
    unfold pyGet
    rw [hurl]

/-- Claim C3 witness: the amended statement at a concrete failing oracle. -/
theorem C3_amended_error_boundary_witness :
    (∃ m, DictionaryAPI.find_word httpDown (toL "hello") ⟨none⟩ =
      (.ok (false, some m), ⟨none⟩)) ∧
    RickAndMortyAPI.show_image httpDown decOk ⟨some charRick⟩ =
      (.error (.requestException (toL "connection error")), []) := by
  constructor
  · exact C3_amended_error_boundary.1 httpDown (toL "hello") ⟨none⟩ (by trivial)
  · exact C3_amended_error_boundary.2 httpDown decOk charRick
      (toL "https://img.example/rick.jpeg") (toL "connection error") rfl rfl rfl

/-- Claim C4 counterexample: in the link branch of `Extra_.py` the URL is
opened before the confirmation message is spoken, and in the show-image
branch of `Lab_10.py` the image is displayed (inside the handler) before
the message is spoken — the side effect precedes the speech, so the claimed
speak-then-effect order is violated on these concrete traces. -/
theorem C4_counterexample :
    (extraStep httpDown ⟨some entryHello⟩ [] (toL "link")).ev =
      [Event.openUrl (dictBase ++ toL "hello"),
       Event.speak (toL "Opened link: " ++ (dictBase ++ toL "hello"))] ∧
    speakFirst (extraStep httpDown ⟨some entryHello⟩ [] (toL "link")).ev = false ∧
    (lab10Step httpImgOk decOk 0 ⟨some charRick⟩ [] (toL "показать")).ev =
      [Event.displayImage (toL "https://img.example/rick.jpeg"),
       Event.speak (toL "Image displayed.")] ∧
    speakFirst (lab10Step httpImgOk decOk 0 ⟨some charRick⟩ [] (toL "показать")).ev = false := by
  refine ⟨rfl, rfl, rfl, rfl⟩

/-- Claim C4 amended: for the side-effect-carrying branches the side effect
is performed first and the message is spoken after it, in that fixed order
(so a side-effect failure would suppress the spoken message, not the other
way round). -/
theorem C4_amended_effect_before_speech :
    (∀ (http : Http) (fs : Fs) (entry : Json) (w : Str),
        entry.falsy = false →
        pyDictGetOpt entry (toL "word") = .ok (.str w) →
        (extraStep http ⟨some entry⟩ fs (toL "link")).ev =
          [Event.openUrl (dictBase ++ w),
           Event.speak (toL "Opened link: " ++ (dictBase ++ w))]) ∧
    (∀ (http : Http) (dec : ImgDec) (fs : Fs) (rng : Nat) (ch : Json)
        (url : Str) (r : HttpResp) (wh : Nat × Nat),
        ch.falsy = false →
        pySubscript ch (toL "image") = .ok (.str url) →
        http url = .ok r →
        dec r.bytes = some wh →
        (lab10Step http dec rng ⟨some ch⟩ fs (toL "показать")).ev =
          [Event.displayImage url, Event.speak (toL "Image displayed.")]) := by
  constructor
  · intro http fs entry w hfalsy hword
    have hlink : DictionaryAPI.link ⟨some entry⟩ = .ok (some (dictBase ++ w), none) := by
      unfold DictionaryAPI.link
      dsimp only
      rw [hfalsy]
      simp only [Bool.false_eq_true, if_false]
      rw [hword]
      rfl
    unfold extraStep extraCmdStep
    rw [show extraFindWord (toL "link") = none from by decide]
    dsimp only
    rw [show strLookup extraCOMMANDS (pyStrip (toL "link")) = some (toL "link") from by decide]
    dsimp only
    rw [show ((toL "link") == toL "exit") = false from by decide,
        show ((toL "link") == toL "save") = false from by decide,
        show ((toL "link") == toL "meaning") = false from by decide,
        show ((toL "link") == toL "example") = false from by decide,
        show ((toL "link") == toL "link") = true from by decide]
    simp only [Bool.false_eq_true, if_false, if_true]
    rw [hlink]
    dsimp only
    rw [show (dictBase ++ w).isEmpty = false from rfl]
    simp only [Bool.false_eq_true, if_false]
  · intro http dec fs rng ch url r wh hfalsy himg hurl hdec
    have hshow : RickAndMortyAPI.show_image http dec ⟨some ch⟩ =
        (.ok (some (toL "Image displayed."), none), [.displayImage url]) := by
      unfold RickAndMortyAPI.show_image
      dsimp only
      rw [hfalsy]
      simp only [Bool.false_eq_true, if_false]
      rw [himg]
      dsimp only
      unfold pyGet
      rw [hurl]
      dsimp only
      rw [hdec]
    unfold lab10Step
    rw [show lab10Route (toL "показать") = Lab10Cmd.showImg from by decide]
    dsimp only
    rw [hshow]
    rfl

/-- Claim C4 witness: the amended order at concrete inputs. -/
theorem C4_amended_effect_before_speech_witness :
    (extraStep httpDown ⟨some entryHello⟩ [] (toL "link")).ev =
      [Event.openUrl (dictBase ++ toL "hello"),
       Event.speak (toL "Opened link: " ++ (dictBase ++ toL "hello"))] ∧
    (lab10Step httpImgOk decOk 0 ⟨some charRick⟩ [] (toL "показать")).ev =
      [Event.displayImage (toL "https://img.example/rick.jpeg"),
       Event.speak (toL "Image displayed.")] := by
  constructor
  · exact C4_amended_effect_before_speech.1 httpDown [] entryHello (toL "hello") rfl rfl
  · exact C4_amended_effect_before_speech.2 httpImgOk decOk [] 0 charRick
      (toL "https://img.example/rick.jpeg") ⟨200, [1, 2, 3], some .null⟩ (3, 4) rfl rfl rfl rfl

theorem totalCount_of_fail (http : Http)
    (h : httpFailsAt http (rickBase ++ toL "/" ++ toL "character")) :
    RickAndMortyAPI.totalCount http = .ok 826 := by
  obtain ⟨m, hm⟩ := fetchUrl_fail http _ h
  unfold RickAndMortyAPI.totalCount RickAndMortyAPI._fetch
  rw [hm]
  have h1 : pyDictGet (Json.obj [(toL "error", Json.str m)]) (toL "info") (.obj []) =
      .ok (.obj []) := by
    simp [pyDictGet, jLookup, show ((toL "error") == toL "info") = false from by decide]
  rw [h1]
  rfl

/-- Claim C9: the total used to draw the random character id comes from the
live count query; when that query fails, or its successful response lacks
the count field, the hardcoded fallback 826 is used; and the drawn id lies
between 1 and the total used, inclusive. -/
theorem C9_random_total_and_range :
    (∀ http : Http, httpFailsAt http (rickBase ++ toL "/" ++ toL "character") →
        RickAndMortyAPI.totalCount http = .ok 826) ∧
    (∀ (http : Http) (r : HttpResp) (fields inner : List (Str × Json)),
        http (rickBase ++ toL "/" ++ toL "character") = .ok r →
        r.status = 200 →
        r.json = some (.obj fields) →
        jLookup fields (toL "info") = some (.obj inner) →
        jLookup inner (toL "count") = none →
        RickAndMortyAPI.totalCount http = .ok 826) ∧
    (∀ (http : Http) (rng : Nat) (t : Int),
        RickAndMortyAPI.totalCount http = .ok t → 1 ≤ t →
        ∃ i, RickAndMortyAPI.drawnId http rng = .ok i ∧ 1 ≤ i ∧ i ≤ t) := by
  refine ⟨fun http h => totalCount_of_fail http h, ?_, ?_⟩
  · intro http r fields inner hr hst hj hinfo hcount
    unfold RickAndMortyAPI.totalCount RickAndMortyAPI._fetch fetchUrl
    rw [hr]
    dsimp only
    rw [if_neg (by rw [hst]; decide)]
    rw [hj]
    dsimp only
    unfold pyDictGet
    dsimp only
    rw [hinfo]
    dsimp only [Option.getD]
    rw [hcount]
  · intro http rng t ht h1
    unfold RickAndMortyAPI.drawnId
    rw [ht]
    dsimp only
    unfold RickAndMortyAPI.randint
    rw [if_pos h1]
    rw [show t - 1 + 1 = t from by ring]
    refine ⟨1 + Int.ofNat (rng % t.toNat), rfl, ?_, ?_⟩
    · simp only [Int.ofNat_eq_coe]
      push_cast
      omega
    · simp only [Int.ofNat_eq_coe]
      push_cast
      have htt : ((t.toNat : Int)) = t := Int.toNat_of_nonneg (by omega)
      have hpos : 0 < t.toNat := by omega
      have hmod : rng % t.toNat < t.toNat := Nat.mod_lt _ hpos
      have hmod' : ((rng % t.toNat : Nat) : Int) < ((t.toNat : Nat) : Int) := by
        exact_mod_cast hmod
      push_cast at hmod'
      omega

/-- Claim C9 witness: with the count query failing, the total is the
fallback 826 and the drawn id lies in 1..826. -/
theorem C9_random_total_and_range_witness :
    RickAndMortyAPI.totalCount httpDown = .ok 826 ∧
    ∃ i, RickAndMortyAPI.drawnId httpDown 5 = .ok i ∧ 1 ≤ i ∧ i ≤ 826 := by
  have h1 : RickAndMortyAPI.totalCount httpDown = .ok 826 :=
    C9_random_total_and_range.1 httpDown (by trivial)
  exact ⟨h1, C9_random_total_and_range.2.2 httpDown 5 826 h1 (by norm_num)⟩

/-- Claim C10: a failing lookup or random-selection call leaves the current
selection unchanged.  `find_word` only replaces the entry when it returns a
success result; `random_character`, when the enumerated failure modes hit
both the count and the detail endpoints, returns an error result with the
state untouched. -/
theorem C10_failure_preserves_selection :
    (∀ (http : Http) (w : Str) (st : DictState),
        (DictionaryAPI.find_word http w st).1 = .ok (true, none) ∨
        (DictionaryAPI.find_word http w st).2 = st) ∧
    (∀ (http : Http) (rng : Nat) (st : RickState),
        httpFailsAt http (rickBase ++ toL "/" ++ toL "character") →
        (∀ s : Str, httpFailsAt http (rickBase ++ toL "/" ++ (toL "character/" ++ s))) →
        ∃ m, RickAndMortyAPI.random_character http rng st = (.ok (none, some m), st)) := by
  constructor
  · intro http w st
    unfold DictionaryAPI.find_word
    rcases hh : http (dictBase ++ w) with m | r
    · right
      rfl
    · dsimp only
      by_cases hs : 400 ≤ r.status ∧ r.status < 600
      · rw [if_pos hs]
        right
        rfl
      · rw [if_neg hs]
        rcases hj : r.json with _ | data
        · right
          rfl
        · dsimp only
          rcases hix : pyIndex0 data with e | x
          · cases e <;> (right; rfl)
          · left
            rfl
  · intro http rng st h1 h2
    have ht : RickAndMortyAPI.totalCount http = .ok 826 := totalCount_of_fail http h1
    unfold RickAndMortyAPI.random_character RickAndMortyAPI.drawnId
    rw [ht]
    dsimp only
    unfold RickAndMortyAPI.randint
    rw [if_pos (by norm_num : (1:Int) ≤ 826)]
    dsimp only
    obtain ⟨m2, hm2⟩ :=
      fetchUrl_fail http _ (h2 (intToDec (1 + Int.ofNat (rng % ((826:Int) - 1 + 1).toNat))))
    unfold RickAndMortyAPI._fetch
    rw [hm2]
    have hc : pyContains (Json.obj [(toL "error", Json.str m2)]) (toL "error") = .ok true := by
      simp [pyContains, show ((toL "error") == toL "error") = true from by decide]
    rw [hc]
    dsimp only
    have hsub : pySubscript (Json.obj [(toL "error", Json.str m2)]) (toL "error") =
        .ok (Json.str m2) := by
      simp [pySubscript, jLookup, show ((toL "error") == toL "error") = true from by decide]
    rw [hsub]
    exact ⟨m2, rfl⟩

/-- Claim C10 witness: with every request failing, `random_character`
returns an error message and the previously selected character is kept. -/
theorem C10_failure_preserves_selection_witness :
    ((DictionaryAPI.find_word httpDown (toL "hello") ⟨some entryHello⟩).1 =
        .ok (true, none) ∨
      (DictionaryAPI.find_word httpDown (toL "hello") ⟨some entryHello⟩).2 =
        ⟨some entryHello⟩) ∧
    ∃ m, RickAndMortyAPI.random_character httpDown 7 ⟨some charRick⟩ =
      (.ok (none, some m), ⟨some charRick⟩) := by
  constructor
  · exact C10_failure_preserves_selection.1 httpDown (toL "hello") ⟨some entryHello⟩
  · exact C10_failure_preserves_selection.2 httpDown 7 ⟨some charRick⟩ (by trivial)
      (fun s => by trivial)

/-- Claim C8: saving a selected entity and reading the file back yields the
fetched entity data (dictionary JSON entries) and bytes of the same length
as the fetched bytes (character images; in fact the identical bytes). -/
theorem C8_roundtrip :
    (∀ (http : Http) (w : Str) (st : DictState) (fs : Fs) (r : HttpResp)
        (flds : List (Str × Json)) (tl : List Json),
        http (dictBase ++ w) = .ok r → r.status = 200 →
        r.json = some (.arr (Json.obj flds :: tl)) →
        (Json.obj flds).falsy = false →
        DictionaryAPI.find_word http w st = (.ok (true, none), ⟨some (.obj flds)⟩) ∧
        ∃ path fs', DictionaryAPI.save fs ⟨some (.obj flds)⟩ = (.ok (true, path), fs') ∧
          fsRead path fs' = some (.jsonFile (.obj flds))) ∧
    (∀ (http : Http) (fs : Fs) (ch : Json) (url nm : Str) (r : HttpResp),
        ch.falsy = false →
        pySubscript ch (toL "image") = .ok (.str url) →
        pySubscript ch (toL "name") = .ok (.str nm) →
        http url = .ok r →
        ∃ path fs', RickAndMortyAPI.save_image http fs ⟨some ch⟩ =
            (.ok (some path, none), fs') ∧
          ∃ bs, fsRead path fs' = some (.binFile bs) ∧ bs = r.bytes ∧
            bs.length = r.bytes.length) := by
  constructor
  · intro http w st fs r flds tl hr hst hj hfalsy
    constructor
    · unfold DictionaryAPI.find_word
      rw [hr]
      dsimp only
      rw [if_neg (by rw [hst]; decide)]
      rw [hj]
      rfl
    · unfold DictionaryAPI.save
      dsimp only
      rw [hfalsy]
      simp only [Bool.false_eq_true, if_false]
      unfold pyDictGet
      dsimp only
      exact ⟨_, _, rfl, fsRead_fsWrite _ _ _⟩
  · intro http fs ch url nm r hfalsy himg hnm hurl
    unfold RickAndMortyAPI.save_image
    dsimp only
    rw [hfalsy]
    simp only [Bool.false_eq_true, if_false]
    rw [himg]
    dsimp only
    unfold pyGet
    rw [hurl]
    dsimp only
    rw [hnm]
    dsimp only
    exact ⟨_, _, rfl, r.bytes, fsRead_fsWrite _ _ _, rfl, rfl⟩

/-- Claim C8 witness: the round trip at concrete oracles, for a dictionary
entry and for a character image of three bytes. -/
theorem C8_roundtrip_witness :
    DictionaryAPI.find_word httpDict (toL "hello") ⟨none⟩ =
      (.ok (true, none), ⟨some entryHello⟩) ∧
    (∃ path fs', DictionaryAPI.save [] ⟨some entryHello⟩ = (.ok (true, path), fs') ∧
      fsRead path fs' = some (.jsonFile entryHello)) ∧
    (∃ path fs', RickAndMortyAPI.save_image httpImgOk [] ⟨some charRick⟩ =
        (.ok (some path, none), fs') ∧
      ∃ bs, fsRead path fs' = some (.binFile bs) ∧ bs = [1, 2, 3] ∧
        bs.length = ([1, 2, 3] : List Nat).length) := by
  have ha := C8_roundtrip.1 httpDict (toL "hello") ⟨none⟩ []
    ⟨200, [], some (.arr [entryHello])⟩ [(toL "word", .str (toL "hello"))] []
    rfl rfl rfl rfl
  have hb := C8_roundtrip.2 httpImgOk [] charRick
    (toL "https://img.example/rick.jpeg") (toL "Rick Sanchez")
    ⟨200, [1, 2, 3], some .null⟩ rfl rfl rfl rfl
  exact ⟨ha.1, ha.2, hb⟩

/-- Claim C5 witness: the exit behaviour at the concrete aliases `выход`
(Lab_10) and `exit` (Extra_), with further utterances pending. -/
theorem C5_exit_stops_loop_witness :
    (toL "выход") ∈ exitKeysOf lab10COMMANDS ∧
    lab10Loop httpDown decOk [] [toL "выход", toL "случайный"] ⟨none⟩ [] =
      ([Event.speak (toL "До скорых встреч!")], LoopEnd.stopped) ∧
    (toL "exit") ∈ exitKeysOf extraCOMMANDS ∧
    extraLoop httpDown [toL "exit", toL "meaning"] ⟨none⟩ [] =
      ([Event.speak (toL "Goodbye!")], LoopEnd.stopped) := by
  refine ⟨by decide, ?_, by decide, ?_⟩
  · exact C5_exit_stops_loop.2.1 (toL "выход") [toL "случайный"] ⟨none⟩ [] httpDown decOk []
      (by decide)
  · exact C5_exit_stops_loop.1 (toL "exit") [toL "meaning"] ⟨none⟩ [] httpDown (by decide)
